import Mathlib

/-!
Shallow embedding of the behavior-based Scribbler controller
(`Segal-Gould_HW_1.py`): the `Avoid` and `Wander` behaviors and the
fixed-priority `Controller.arbitrate` loop, together with theorems about
the arbitration, the sensor-triggered checks, the pylon-bearing estimator
and the wheel-speed clamp.

Sensor readings (obstacle intensities, blob pixel counts and centroids)
are passed in explicitly; actuator calls (`backward`, `turnRight`,
`turnLeft`, `motors`, `beep`, `stop`) are recorded as a trace of
`Action`s.  The random draws of `Wander.run` are passed in as the raw
`random()` values.  A second, `Except`-valued embedding models sensor
reads that may raise, to study error propagation through the loop.
-/

namespace Scribbler

/-- An actuator command issued through the Myro API. -/
inductive Action where
  | backward (speed dur : ℚ)
  | turnRight (speed dur : ℚ)
  | turnLeft (speed dur : ℚ)
  | motors (l r : ℚ)
  | beep (dur freq : ℚ)
  | stop
  deriving DecidableEq

/-- `True` exactly for a `motors` (straight/differential wheel) command. -/
def Action.isMotors : Action → Bool
  | Action.motors _ _ => true
  | _ => false

namespace Avoid

/-- `Behavior.NO_ACTION` inherited by `Avoid`. -/
def NO_ACTION : ℕ := 0
/-- `Avoid.TURN_LEFT`. -/
def TURN_LEFT : ℕ := 1
/-- `Avoid.TURN_RIGHT`. -/
def TURN_RIGHT : ℕ := 2
/-- `Avoid.BACKUP_SPEED = 0.5`. -/
def BACKUP_SPEED : ℚ := 1 / 2
/-- `Avoid.BACKUP_DUR = 0.5`. -/
def BACKUP_DUR : ℚ := 1 / 2
/-- `self.obstacleThresh = 2500` set in `Avoid.__init__`. -/
def obstacleThresh : ℚ := 2500
/-- `self.turnspeed = 0.5` set in `Avoid.__init__`. -/
def turnspeed : ℚ := 1 / 2
/-- `self.turndur = 0.6` set in `Avoid.__init__`. -/
def turndur : ℚ := 3 / 5

/-- `Avoid.check`: given the obstacle reading `(L, C, R)` from
`getObstacle()`, the blobbed pixel count `pxs` from `getBlob()` and the
stall flag from `getStall()`, returns the new `self.state` and the
boolean result. -/
def check (L C R : ℚ) (pxs : ℕ) (stall : Bool) : ℕ × Bool :=
  if stall = true ∨ (pxs ≤ 50 ∧ (L > obstacleThresh ∨ C > obstacleThresh)) then
    (TURN_RIGHT, true)
  else if stall = true ∨ (pxs ≤ 50 ∧ R > obstacleThresh) then
    (TURN_LEFT, true)
  else
    (NO_ACTION, false)

/-- `Avoid.run`: backs up, then turns according to `self.state`; returns
the trace of actuator commands issued. -/
def run (state : ℕ) : List Action :=
  Action.backward BACKUP_SPEED BACKUP_DUR ::
    (if state = TURN_RIGHT then [Action.turnRight turnspeed turndur]
     else if state = TURN_LEFT then [Action.turnLeft turnspeed turndur]
     else [])

end Avoid

namespace Wander

/-- `Behavior.NO_ACTION` inherited by `Wander`. -/
def NO_ACTION : ℕ := 0
/-- `Wander.WANDER`. -/
def WANDER : ℕ := 1
/-- `Wander.OBSTACLE_THRESH = 1500`. -/
def OBSTACLE_THRESH : ℚ := 1500
/-- `Wander.MAX_SPEED = 1.0`. -/
def MAX_SPEED : ℚ := 1
/-- `Wander.MIN_SPEED = 0.1`. -/
def MIN_SPEED : ℚ := 1 / 10
/-- `Wander.DSPEED_MAX = 0.1`. -/
def DSPEED_MAX : ℚ := 1 / 10
/-- `Wander.IMG_WIDTH = 427`. -/
def IMG_WIDTH : ℕ := 427

/-- A blob reading from `getBlob()`: the pixel count and the horizontal
centroid (the third component is never used). -/
structure Blob where
  pxs : ℕ
  avgX : ℚ
  deriving DecidableEq

/-- The persistent state of a `Wander` instance: the two motor speeds
and the pylon-position accumulator `self.PYLON_POS`. -/
structure State where
  lspeed : ℚ
  rspeed : ℚ
  pylonPos : ℤ
  deriving DecidableEq

/-- `Wander.__init__`: both speeds start at `MAX_SPEED`; `PYLON_POS`
has its class default `0`. -/
def init : State := ⟨MAX_SPEED, MAX_SPEED, 0⟩

/-- `Wander.check`: given the obstacle reading and the blobbed pixel
count, returns the new `self.state` and the boolean result. -/
def check (L C R : ℚ) (pxs : ℕ) : ℕ × Bool :=
  if (L + C + R) / 3 < OBSTACLE_THRESH ∨ pxs > 150 then
    (WANDER, true)
  else
    (NO_ACTION, false)

/-- The `beep(0.5, 1479.98)` confirmation tone. -/
def beepTone : Action := Action.beep (1 / 2) (147998 / 100)

/-- The helper `setPylonPos` defined inside `Wander.run`: reads a fresh
blob; above the 150-pixel confidence threshold, decrements `PYLON_POS`
(with a beep) when the centroid is left of `IMG_WIDTH // 2` and
increments it (with a beep) when right of it.  Returns the new
`PYLON_POS` and the trace of actions. -/
def setPylonPos (pos : ℤ) (b : Blob) : ℤ × List Action :=
  if b.pxs > 150 then
    let s1 : ℤ × List Action :=
      if b.avgX < ((IMG_WIDTH / 2 : ℕ) : ℚ) then (pos - 1, [beepTone]) else (pos, [])
    let s2 : ℤ × List Action :=
      if b.avgX > ((IMG_WIDTH / 2 : ℕ) : ℚ) then (s1.1 + 1, [beepTone]) else (s1.1, [])
    (s2.1, s1.2 ++ s2.2)
  else
    (pos, [])

/-- `Wander.run`: perturbs both speeds by `(2*random()-1)*DSPEED_MAX`
(the raw `random()` draws are `ul`, `ur`), clamps them into
`[MIN_SPEED, MAX_SPEED]`, updates the pylon estimate once before the
motor command and once after, and steers toward the pylon only if the
estimate moved more than 2 units across the first update.  `b1` and
`b2` are the blobs read by the two `setPylonPos` calls.  Returns the
updated state and the trace of actions. -/
def run (s : State) (ul ur : ℚ) (b1 b2 : Blob) : State × List Action :=
  let dl := (2 * ul - 1) * DSPEED_MAX
  let dr := (2 * ur - 1) * DSPEED_MAX
  let lspeed := max MIN_SPEED (min MAX_SPEED (s.lspeed + dl))
  let rspeed := max MIN_SPEED (min MAX_SPEED (s.rspeed + dr))
  let prevPylonPos := s.pylonPos
  let step1 := setPylonPos s.pylonPos b1
  let motorAct :=
    if step1.1 < prevPylonPos - 2 then Action.motors (-|lspeed|) (|rspeed|)
    else if step1.1 > prevPylonPos + 2 then Action.motors (|lspeed|) (-|rspeed|)
    else Action.motors lspeed rspeed
  let step2 := setPylonPos step1.1 b2
  (⟨lspeed, rspeed, step2.1⟩, step1.2 ++ [motorAct] ++ step2.2)

end Wander

/-- The controller's per-tick mutable state: `Avoid`'s and `Wander`'s
`self.state` fields and `Wander`'s persistent speeds/estimate. -/
structure CState where
  avoidState : ℕ
  wanderState : ℕ
  wander : Wander.State
  deriving DecidableEq

/-- The controller state right after `Controller.__init__`. -/
def initCState : CState := ⟨Avoid.NO_ACTION, Wander.NO_ACTION, Wander.init⟩

/-- Which behavior (if any) ran during a tick of `arbitrate`. -/
inductive Ran where
  | avoid
  | wander
  | noBehavior
  deriving DecidableEq

/-- The sensor values available during one tick: `Avoid.check`'s
`getObstacle`/`getBlob`/`getStall` reads, `Wander.check`'s fresh
`getObstacle`/`getBlob` reads, the two `random()` draws, and the blobs
seen by the two `setPylonPos` calls inside `Wander.run`. -/
structure Env where
  aL : ℚ
  aC : ℚ
  aR : ℚ
  aPxs : ℕ
  stall : Bool
  wL : ℚ
  wC : ℚ
  wR : ℚ
  wPxs : ℕ
  ul : ℚ
  ur : ℚ
  b1 : Wander.Blob
  b2 : Wander.Blob
  deriving DecidableEq

/-- `Controller.arbitrate`: walk `self.behaviors = [avoid, wander]` in
priority order, run the first behavior whose `check` returns true, and
return without consulting the rest.  Returns the new controller state,
the trace of actuator commands, and which behavior ran. -/
def arbitrate (cs : CState) (e : Env) : CState × List Action × Ran :=
  let ac := Avoid.check e.aL e.aC e.aR e.aPxs e.stall
  if ac.2 then
    ({cs with avoidState := ac.1}, Avoid.run ac.1, Ran.avoid)
  else
    let wc := Wander.check e.wL e.wC e.wR e.wPxs
    if wc.2 then
      let wr := Wander.run cs.wander e.ul e.ur e.b1 e.b2
      (⟨ac.1, wc.1, wr.1⟩, wr.2, Ran.wander)
    else
      (⟨ac.1, wc.1, cs.wander⟩, [], Ran.noBehavior)

/-! ### Fallible embedding

The Python code contains no `try`/`except`: a Myro sensor read that
raises inside a behavior's `check`/`run` propagates through
`Controller.arbitrate` and out of the `for` loop in `Controller.run`,
skipping the final `stop()`.  We model each hardware read as an
`Except String` value and re-embed the same code monadically, with the
same absence of any handler. -/

/-- The per-tick sensor reads, each of which may fail (raise). -/
structure EnvE where
  obst : Except String (ℚ × ℚ × ℚ)
  blob : Except String ℕ
  stall : Except String Bool
  wobst : Except String (ℚ × ℚ × ℚ)
  wblob : Except String ℕ
  ul : ℚ
  ur : ℚ
  b1 : Except String Wander.Blob
  b2 : Except String Wander.Blob

/-- `Avoid.check` with fallible sensor reads: any raise propagates. -/
def Avoid.checkE (o : Except String (ℚ × ℚ × ℚ)) (bp : Except String ℕ)
    (st : Except String Bool) : Except String (ℕ × Bool) := do
  let lcr ← o
  let pxs ← bp
  let s ← st
  pure (Avoid.check lcr.1 lcr.2.1 lcr.2.2 pxs s)

/-- `Wander.check` with fallible sensor reads: any raise propagates. -/
def Wander.checkE (o : Except String (ℚ × ℚ × ℚ)) (bp : Except String ℕ) :
    Except String (ℕ × Bool) := do
  let lcr ← o
  let pxs ← bp
  pure (Wander.check lcr.1 lcr.2.1 lcr.2.2 pxs)

/-- `Wander.run` with fallible blob reads: any raise propagates. -/
def Wander.runE (s : Wander.State) (ul ur : ℚ)
    (b1 b2 : Except String Wander.Blob) :
    Except String (Wander.State × List Action) := do
  let x1 ← b1
  let x2 ← b2
  pure (Wander.run s ul ur x1 x2)

/-- `Controller.arbitrate` over fallible sensor reads.  The source has
no handler, so the monadic bind propagates every failure. -/
def arbitrateE (cs : CState) (e : EnvE) : Except String (CState × List Action) := do
  let ac ← Avoid.checkE e.obst e.blob e.stall
  if ac.2 then
    pure ({cs with avoidState := ac.1}, Avoid.run ac.1)
  else
    let wc ← Wander.checkE e.wobst e.wblob
    if wc.2 then
      let wr ← Wander.runE cs.wander e.ul e.ur e.b1 e.b2
      pure (⟨ac.1, wc.1, wr.1⟩, wr.2)
    else
      pure (⟨ac.1, wc.1, cs.wander⟩, [])

/-- The `for seconds in timer(180): self.arbitrate()` loop of
`Controller.run`, one `EnvE` per tick: returns the actions issued
before any failure, and either the final state or the propagated
failure. -/
def runTicks (cs : CState) (envs : List EnvE) : List Action × Except String CState :=
  match envs with
  | [] => ([], Except.ok cs)
  | e :: rest =>
    match arbitrateE cs e with
    | Except.error msg => ([], Except.error msg)
    | Except.ok res =>
      let next := runTicks res.1 rest
      (res.2 ++ next.1, next.2)

/-- `Controller.run`: run the tick loop; only when the loop finishes
normally does control reach the final `stop()` (there is no
`try`/`finally`), so a propagated failure exits without stopping. -/
def controllerRun (cs : CState) (envs : List EnvE) : List Action × Except String Unit :=
  let t := runTicks cs envs
  match t.2 with
  | Except.ok _ => (t.1 ++ [Action.stop], Except.ok ())
  | Except.error msg => (t.1, Except.error msg)

/-! ### Helper lemmas -/

/-- One `setPylonPos` invocation moves the estimate by `-1`, `0` or `+1`. -/
theorem Wander.setPylonPos_cases (pos : ℤ) (b : Wander.Blob) :
    (Wander.setPylonPos pos b).1 = pos - 1 ∨ (Wander.setPylonPos pos b).1 = pos ∨
      (Wander.setPylonPos pos b).1 = pos + 1 := by
  unfold Wander.setPylonPos
  split_ifs with h1 h2 h3 <;> simp_all

/-- Every action emitted by `setPylonPos` is the confirmation beep. -/
theorem Wander.setPylonPos_acts (pos : ℤ) (b : Wander.Blob) :
    ∀ a ∈ (Wander.setPylonPos pos b).2, a = Wander.beepTone := by
  unfold Wander.setPylonPos
  split_ifs with h1 h2 h3 <;> simp_all

/-- A confident blob left of the midpoint decrements the estimate and
beeps once. -/
theorem Wander.setPylonPos_left (pos : ℤ) (b : Wander.Blob) (hp : b.pxs > 150)
    (hx : b.avgX < ((Wander.IMG_WIDTH / 2 : ℕ) : ℚ)) :
    Wander.setPylonPos pos b = (pos - 1, [Wander.beepTone]) := by
  unfold Wander.setPylonPos
  rw [if_pos hp]
  simp [if_pos hx, if_neg (not_lt.mpr hx.le)]

/-- A confident blob right of the midpoint increments the estimate and
beeps once. -/
theorem Wander.setPylonPos_right (pos : ℤ) (b : Wander.Blob) (hp : b.pxs > 150)
    (hx : b.avgX > ((Wander.IMG_WIDTH / 2 : ℕ) : ℚ)) :
    Wander.setPylonPos pos b = (pos + 1, [Wander.beepTone]) := by
  unfold Wander.setPylonPos
  rw [if_pos hp]
  simp [if_neg (not_lt.mpr hx.le), if_pos hx]

/-- Below the confidence threshold nothing happens. -/
theorem Wander.setPylonPos_small (pos : ℤ) (b : Wander.Blob) (hp : b.pxs ≤ 150) :
    Wander.setPylonPos pos b = (pos, []) := by
  unfold Wander.setPylonPos
  rw [if_neg (by omega)]

/-! ### C2: characterization of `Avoid.check` -/

/-- C2: `Avoid.check` returns true exactly when stalled, or the blob is
not confident (`pxs ≤ 50`) and left/center intensity exceeds 2500
(state `TURN_RIGHT`), or the blob is not confident and right intensity
exceeds 2500 (state `TURN_LEFT`, when the left/center branch did not
fire); otherwise it sets `NO_ACTION` and returns false; a stall always
yields `(TURN_RIGHT, true)`. -/
theorem avoid_check_characterization (L C R : ℚ) (pxs : ℕ) (stall : Bool) :
    ((Avoid.check L C R pxs stall).2 = true ↔
      stall = true ∨ (pxs ≤ 50 ∧ (L > 2500 ∨ C > 2500)) ∨ (pxs ≤ 50 ∧ R > 2500)) ∧
    (stall = true → Avoid.check L C R pxs stall = (Avoid.TURN_RIGHT, true)) ∧
    (pxs ≤ 50 → (L > 2500 ∨ C > 2500) →
      Avoid.check L C R pxs stall = (Avoid.TURN_RIGHT, true)) ∧
    (stall = false → ¬(pxs ≤ 50 ∧ (L > 2500 ∨ C > 2500)) → pxs ≤ 50 → R > 2500 →
      Avoid.check L C R pxs stall = (Avoid.TURN_LEFT, true)) ∧
    ((Avoid.check L C R pxs stall).2 = false →
      Avoid.check L C R pxs stall = (Avoid.NO_ACTION, false)) := by
  unfold Avoid.check Avoid.obstacleThresh
  refine ⟨?_, ?_, ?_, ?_, ?_⟩
  · split_ifs with h1 h2 <;> simp_all [not_lt] <;> tauto
  · intro h
    rw [if_pos (Or.inl h)]
  · intro hp hLC
    rw [if_pos (Or.inr ⟨hp, hLC⟩)]
  · intro hs hn hp hR
    have h1 : ¬(stall = true ∨ (pxs ≤ 50 ∧ (L > 2500 ∨ C > 2500))) := by
      rintro (h | h)
      · rw [hs] at h
        exact Bool.false_ne_true h
      · exact hn h
    rw [if_neg h1, if_pos (Or.inr ⟨hp, hR⟩)]
  · split_ifs with h1 h2 <;> simp

/-- C2 witness: a stalled reading with a large blob and no obstacles
still triggers, with state `TURN_RIGHT`. -/
theorem avoid_check_characterization_w :
    Avoid.check 0 0 0 500 true = (Avoid.TURN_RIGHT, true) :=
  (avoid_check_characterization 0 0 0 500 true).2.1 rfl

/-! ### C5: characterization of `Wander.check` -/

/-- C5: `Wander.check` returns `(WANDER, true)` exactly when the mean
obstacle intensity is below 1500 or the blob is confident
(`pxs > 150`), and `(NO_ACTION, false)` otherwise; for reading
`(100,100,100)` with pixel count 0 it returns true. -/
theorem wander_check_characterization (L C R : ℚ) (pxs : ℕ) :
    (Wander.check L C R pxs = (Wander.WANDER, true) ↔
      (L + C + R) / 3 < 1500 ∨ pxs > 150) ∧
    (¬((L + C + R) / 3 < 1500 ∨ pxs > 150) →
      Wander.check L C R pxs = (Wander.NO_ACTION, false)) ∧
    (Wander.check 100 100 100 0).2 = true := by
  refine ⟨?_, ?_, by norm_num [Wander.check, Wander.OBSTACLE_THRESH]⟩ <;>
    unfold Wander.check Wander.OBSTACLE_THRESH <;>
    split_ifs with h <;> simp_all [Wander.WANDER, Wander.NO_ACTION]

/-- C5 witness: the characterization applied at reading
`(100,100,100)`, pixel count 0. -/
theorem wander_check_characterization_w :
    Wander.check 100 100 100 0 = (Wander.WANDER, true) :=
  (wander_check_characterization 100 100 100 0).1.2 (by norm_num)

/-! ### C6: `Avoid.run` backs up first, then turns -/

/-- C6: every `Avoid.run` trace starts with the fixed backward command;
with state `TURN_RIGHT` it is exactly backward-then-`turnRight`, with
state `TURN_LEFT` exactly backward-then-`turnLeft`, each with the fixed
speed and duration. -/
theorem avoid_run_backward_first (state : ℕ) :
    (Avoid.run state).head? =
      some (Action.backward Avoid.BACKUP_SPEED Avoid.BACKUP_DUR) ∧
    (state = Avoid.TURN_RIGHT →
      Avoid.run state = [Action.backward Avoid.BACKUP_SPEED Avoid.BACKUP_DUR,
        Action.turnRight Avoid.turnspeed Avoid.turndur]) ∧
    (state = Avoid.TURN_LEFT →
      Avoid.run state = [Action.backward Avoid.BACKUP_SPEED Avoid.BACKUP_DUR,
        Action.turnLeft Avoid.turnspeed Avoid.turndur]) := by
  refine ⟨?_, ?_, ?_⟩ <;>
    simp only [Avoid.run, Avoid.TURN_RIGHT, Avoid.TURN_LEFT] <;>
    first
      | (intro h; subst h; norm_num)
      | (split_ifs <;> rfl)

/-- C6 witness: with the state set by a stall, the trace is backward
then `turnRight`. -/
theorem avoid_run_backward_first_w :
    Avoid.run Avoid.TURN_RIGHT = [Action.backward Avoid.BACKUP_SPEED Avoid.BACKUP_DUR,
      Action.turnRight Avoid.turnspeed Avoid.turndur] :=
  (avoid_run_backward_first Avoid.TURN_RIGHT).2.1 rfl

/-! ### C1: priority exclusivity of `arbitrate` -/

/-- C1: whenever `Avoid.check` returns true for the tick's readings,
`arbitrate` runs `Avoid.run` on the state that check set, reports that
`Avoid` ran, and never touches `Wander` (its check and run are skipped;
its persistent state is unchanged). -/
theorem arbitrate_priority (cs : CState) (e : Env)
    (h : (Avoid.check e.aL e.aC e.aR e.aPxs e.stall).2 = true) :
    arbitrate cs e =
      ({cs with avoidState := (Avoid.check e.aL e.aC e.aR e.aPxs e.stall).1},
        Avoid.run (Avoid.check e.aL e.aC e.aR e.aPxs e.stall).1, Ran.avoid) ∧
    (arbitrate cs e).1.wander = cs.wander ∧
    (arbitrate cs e).2.2 = Ran.avoid := by
  have key : arbitrate cs e =
      ({cs with avoidState := (Avoid.check e.aL e.aC e.aR e.aPxs e.stall).1},
        Avoid.run (Avoid.check e.aL e.aC e.aR e.aPxs e.stall).1, Ran.avoid) := by
    unfold arbitrate
    simp only [h, if_true]
  refine ⟨key, ?_, ?_⟩ <;> rw [key]

/-- The tick environment for a stalled robot with no obstacles and no
blob: `Avoid.check` triggers on the stall alone. -/
def envStall : Env :=
  { aL := 0, aC := 0, aR := 0, aPxs := 0, stall := true, wL := 0, wC := 0, wR := 0,
    wPxs := 0, ul := 0, ur := 0, b1 := ⟨0, 0⟩, b2 := ⟨0, 0⟩ }

/-- C1 witness: on a stalled tick `Avoid` runs and `Wander`'s state is
untouched. -/
theorem arbitrate_priority_w :
    (arbitrate initCState envStall).1.wander = initCState.wander ∧
    (arbitrate initCState envStall).2.2 = Ran.avoid :=
  ⟨(arbitrate_priority initCState envStall (by decide)).2.1,
    (arbitrate_priority initCState envStall (by decide)).2.2⟩

/-! ### C3: the bearing estimator moves by at most one unit -/

/-- C3: one `setPylonPos` invocation changes the estimate by exactly
`-1`, `0` or `+1`: down by one for a confident blob (`pxs > 150`) left
of the midpoint, up by one right of the midpoint, unchanged whenever
`pxs ≤ 150`. -/
theorem setPylonPos_unit_change (pos : ℤ) (b : Wander.Blob) :
    ((Wander.setPylonPos pos b).1 = pos - 1 ∨ (Wander.setPylonPos pos b).1 = pos ∨
      (Wander.setPylonPos pos b).1 = pos + 1) ∧
    (b.pxs > 150 → b.avgX < ((Wander.IMG_WIDTH / 2 : ℕ) : ℚ) →
      (Wander.setPylonPos pos b).1 = pos - 1) ∧
    (b.pxs > 150 → b.avgX > ((Wander.IMG_WIDTH / 2 : ℕ) : ℚ) →
      (Wander.setPylonPos pos b).1 = pos + 1) ∧
    (b.pxs ≤ 150 → (Wander.setPylonPos pos b).1 = pos) := by
  refine ⟨Wander.setPylonPos_cases pos b, ?_, ?_, ?_⟩
  · intro hp hx
    rw [Wander.setPylonPos_left pos b hp hx]
  · intro hp hx
    rw [Wander.setPylonPos_right pos b hp hx]
  · intro hp
    rw [Wander.setPylonPos_small pos b hp]

/-- C3 witness: a 200-pixel blob at `x = 100` (left of midpoint 213)
takes the estimate from 5 to 4. -/
theorem setPylonPos_unit_change_w :
    (Wander.setPylonPos 5 ⟨200, 100⟩).1 = 5 - 1 :=
  (setPylonPos_unit_change 5 ⟨200, 100⟩).2.1 (by norm_num)
    (by norm_num [Wander.IMG_WIDTH])

/-! ### C7: three consecutive confident left detections -/

/-- C7: three consecutive `setPylonPos` invocations, each seeing a
200-pixel blob with centroid left of the midpoint, decrease the
estimate by exactly 3 and emit exactly 3 beeps. -/
theorem pylon_three_left_detections (pos : ℤ) (x1 x2 x3 : ℚ)
    (h1 : x1 < ((Wander.IMG_WIDTH / 2 : ℕ) : ℚ))
    (h2 : x2 < ((Wander.IMG_WIDTH / 2 : ℕ) : ℚ))
    (h3 : x3 < ((Wander.IMG_WIDTH / 2 : ℕ) : ℚ)) :
    (Wander.setPylonPos (Wander.setPylonPos (Wander.setPylonPos pos ⟨200, x1⟩).1
        ⟨200, x2⟩).1 ⟨200, x3⟩).1 = pos - 3 ∧
    (Wander.setPylonPos pos ⟨200, x1⟩).2 ++
      (Wander.setPylonPos (Wander.setPylonPos pos ⟨200, x1⟩).1 ⟨200, x2⟩).2 ++
      (Wander.setPylonPos (Wander.setPylonPos (Wander.setPylonPos pos ⟨200, x1⟩).1
        ⟨200, x2⟩).1 ⟨200, x3⟩).2 =
      [Wander.beepTone, Wander.beepTone, Wander.beepTone] := by
  simp only [Wander.setPylonPos_left pos ⟨200, x1⟩ (by norm_num) h1]
  simp only [Wander.setPylonPos_left (pos - 1) ⟨200, x2⟩ (by norm_num) h2]
  simp only [Wander.setPylonPos_left (pos - 1 - 1) ⟨200, x3⟩ (by norm_num) h3]
  exact ⟨by ring, rfl⟩

/-- C7 witness: from estimate 0, three left detections at `x = 100`
give `-3` with three beeps. -/
theorem pylon_three_left_detections_w :
    (Wander.setPylonPos (Wander.setPylonPos (Wander.setPylonPos 0 ⟨200, 100⟩).1
        ⟨200, 100⟩).1 ⟨200, 100⟩).1 = 0 - 3 :=
  (pylon_three_left_detections 0 100 100 100 (by norm_num [Wander.IMG_WIDTH])
    (by norm_num [Wander.IMG_WIDTH]) (by norm_num [Wander.IMG_WIDTH])).1

/-! ### C4: wheel speeds stay clamped in `[MIN_SPEED, MAX_SPEED]` -/

/-- The inputs consumed by one `Wander.run` invocation: the two raw
`random()` draws and the two blob reads. -/
structure WStep where
  ul : ℚ
  ur : ℚ
  b1 : Wander.Blob
  b2 : Wander.Blob

/-- Iterate `Wander.run` over a sequence of tick inputs. -/
def runSteps (s : Wander.State) (steps : List WStep) : Wander.State :=
  match steps with
  | [] => s
  | st :: rest => runSteps (Wander.run s st.ul st.ur st.b1 st.b2).1 rest

/-- Both wheel speeds lie in `[MIN_SPEED, MAX_SPEED]`. -/
def speedInRange (s : Wander.State) : Prop :=
  Wander.MIN_SPEED ≤ s.lspeed ∧ s.lspeed ≤ Wander.MAX_SPEED ∧
    Wander.MIN_SPEED ≤ s.rspeed ∧ s.rspeed ≤ Wander.MAX_SPEED

/-- The clamp `max MIN_SPEED (min MAX_SPEED x)` lands in range for any
input. -/
theorem clamp_bounds (x : ℚ) :
    Wander.MIN_SPEED ≤ max Wander.MIN_SPEED (min Wander.MAX_SPEED x) ∧
      max Wander.MIN_SPEED (min Wander.MAX_SPEED x) ≤ Wander.MAX_SPEED :=
  ⟨le_max_left _ _,
    max_le (by norm_num [Wander.MIN_SPEED, Wander.MAX_SPEED]) (min_le_left _ _)⟩

/-- The left speed produced by one `Wander.run` step, unfolded. -/
theorem Wander.run_lspeed (s : Wander.State) (ul ur : ℚ) (b1 b2 : Wander.Blob) :
    (Wander.run s ul ur b1 b2).1.lspeed =
      max Wander.MIN_SPEED
        (min Wander.MAX_SPEED (s.lspeed + (2 * ul - 1) * Wander.DSPEED_MAX)) := rfl

/-- The right speed produced by one `Wander.run` step, unfolded. -/
theorem Wander.run_rspeed (s : Wander.State) (ul ur : ℚ) (b1 b2 : Wander.Blob) :
    (Wander.run s ul ur b1 b2).1.rspeed =
      max Wander.MIN_SPEED
        (min Wander.MAX_SPEED (s.rspeed + (2 * ur - 1) * Wander.DSPEED_MAX)) := rfl

/-- One `Wander.run` step always leaves the speeds in range, whatever
the perturbation. -/
theorem Wander.run_inRange (s : Wander.State) (ul ur : ℚ) (b1 b2 : Wander.Blob) :
    speedInRange (Wander.run s ul ur b1 b2).1 := by
  unfold speedInRange
  rw [Wander.run_lspeed, Wander.run_rspeed]
  exact ⟨(clamp_bounds _).1, (clamp_bounds _).2, (clamp_bounds _).1, (clamp_bounds _).2⟩

/-- C4: from the construction-time speeds, after any sequence of
`Wander.run` invocations (any random draws, any blobs) both speeds
remain in `[MIN_SPEED, MAX_SPEED]`; moreover the clamp holds already
after every single step, from any prior state. -/
theorem wander_speed_clamped (steps : List WStep) (s : Wander.State) (ul ur : ℚ)
    (b1 b2 : Wander.Blob) :
    speedInRange (runSteps Wander.init steps) ∧
      speedInRange (Wander.run s ul ur b1 b2).1 := by
  refine ⟨?_, Wander.run_inRange s ul ur b1 b2⟩
  have key : ∀ (l : List WStep) (t : Wander.State),
      speedInRange t → speedInRange (runSteps t l) := by
    intro l
    induction l with
    | nil => exact fun t ht => ht
    | cons st rest ih =>
      intro t ht
      exact ih _ (Wander.run_inRange t st.ul st.ur st.b1 st.b2)
  exact key steps Wander.init
    (by norm_num [speedInRange, Wander.init, Wander.MIN_SPEED, Wander.MAX_SPEED])

/-! ### C10: the differential-steering branches of `Wander.run` are dead -/

/-- `setPylonPos` never emits a motor command. -/
theorem setPylonPos_filter_motors (pos : ℤ) (b : Wander.Blob) :
    ((Wander.setPylonPos pos b).2).filter Action.isMotors = [] := by
  unfold Wander.setPylonPos
  split_ifs <;> rfl

/-- C10: in every `Wander.run` invocation the single motor command
issued is the straight command `motors(lspeed, rspeed)` with the
freshly clamped speeds: the single intervening `setPylonPos` moves the
estimate by at most one, so the `±2`-band steering branches can never
fire. -/
theorem wander_run_motor_straight (s : Wander.State) (ul ur : ℚ) (b1 b2 : Wander.Blob) :
    ((Wander.run s ul ur b1 b2).2).filter Action.isMotors =
      [Action.motors (Wander.run s ul ur b1 b2).1.lspeed
        (Wander.run s ul ur b1 b2).1.rspeed] := by
  have hc := Wander.setPylonPos_cases s.pylonPos b1
  have hlt : ¬((Wander.setPylonPos s.pylonPos b1).1 < s.pylonPos - 2) := by
    rcases hc with h | h | h <;> omega
  have hgt : ¬((Wander.setPylonPos s.pylonPos b1).1 > s.pylonPos + 2) := by
    rcases hc with h | h | h <;> omega
  simp only [Wander.run, if_neg hlt, if_neg hgt, List.filter_append,
    setPylonPos_filter_motors, List.nil_append, List.append_nil]
  rfl

/-! ### C8: failing sensor reads propagate out of `arbitrate` -/

/-- A tick whose very first hardware read (`getObstacle` inside
`Avoid.check`) raises. -/
def envSensorFail : EnvE :=
  { obst := Except.error "sensor failure", blob := Except.ok 0,
    stall := Except.ok false, wobst := Except.ok (0, 0, 0), wblob := Except.ok 0,
    ul := 0, ur := 0, b1 := Except.ok ⟨0, 0⟩, b2 := Except.ok ⟨0, 0⟩ }

/-- A second failing tick, used to instantiate the propagation theorem. -/
def envSensorFail2 : EnvE :=
  { obst := Except.error "serial timeout", blob := Except.ok 0,
    stall := Except.ok false, wobst := Except.ok (0, 0, 0), wblob := Except.ok 0,
    ul := 0, ur := 0, b1 := Except.ok ⟨0, 0⟩, b2 := Except.ok ⟨0, 0⟩ }

/-- C8 counterexample: a hardware-read failure inside `Avoid.check` is
NOT contained — `arbitrate` itself returns the error, so the failure
propagates out of the arbitration loop. -/
theorem arbitrate_error_propagates_cex :
    arbitrateE initCState envSensorFail = Except.error "sensor failure" := rfl

/-- C8 amended: `arbitrate` has no handler, so any failure of the
obstacle read inside the highest-priority `check` propagates out of
`arbitrate` unchanged (it is not treated as "does not want to run"). -/
theorem arbitrate_error_propagates (cs : CState) (e : EnvE) (msg : String)
    (h : e.obst = Except.error msg) :
    arbitrateE cs e = Except.error msg := by
  unfold arbitrateE Avoid.checkE
  rw [h]
  rfl

/-- C8 witness: the propagation theorem applied to a concrete failing
tick. -/
theorem arbitrate_error_propagates_w :
    arbitrateE initCState envSensorFail2 = Except.error "serial timeout" :=
  arbitrate_error_propagates initCState envSensorFail2 "serial timeout" rfl

/-! ### C9: only the normal exit of `Controller.run` stops the motors -/

/-- C9 counterexample: when a tick raises, `Controller.run` exits with
the error and the action trace does not end with `stop` — there is no
`try`/`finally` routing early exits through `stop()`. -/
theorem controller_run_no_stop_cex :
    (controllerRun initCState [envSensorFail]).1.getLast? ≠ some Action.stop ∧
      (controllerRun initCState [envSensorFail]).2 = Except.error "sensor failure" := by
  have h : controllerRun initCState [envSensorFail] =
      ([], Except.error "sensor failure") := rfl
  rw [h]
  exact ⟨by simp, rfl⟩

/-- C9 amended: only when every tick of the loop completes without a
raise does `Controller.run` reach the final `stop()`; in that case the
trace ends with `stop`, while an error exit skips it. -/
theorem controller_run_ok_ends_stop (cs : CState) (envs : List EnvE)
    (h : (controllerRun cs envs).2 = Except.ok ()) :
    (controllerRun cs envs).1.getLast? = some Action.stop := by
  unfold controllerRun at h ⊢
  cases ht : (runTicks cs envs).2 with
  | ok c =>
    simp only [ht]
    rw [List.getLast?_append_cons]
    rfl
  | error msg =>
    simp only [ht] at h
    exact Except.noConfusion h

/-- C9 witness: a loop with no ticks completes normally and its whole
trace is the final `stop`. -/
theorem controller_run_ok_ends_stop_w :
    (controllerRun initCState []).1.getLast? = some Action.stop :=
  controller_run_ok_ends_stop initCState [] rfl

end Scribbler
